import Mathlib

/-!
Verification of the Compliance-Chatbot RAG core against its specification.

The definitions below are a shallow embedding of the Python sources under
`backend/app/services`: floats are modelled as rationals, dictionaries as
structures with `Option` fields, raised exceptions as `Except`, the tokenizer
by identifying a sentence with its token count (token counts concatenate
additively, matching the additive accumulator `current_tokens` of the source),
and the external embedding service as a function parameter.  Each definition
mirrors one Python function and is named after it.
-/

namespace ComplianceRAG

/-! ## Shared helpers

`containsSBP` models the Python expression `"SBP" in s` (used both by
`RAGEngine.calculate_confidence` and by `MilvusVectorStore.search_similar`);
`pymin`/`pymax` model the Python built-ins `min`/`max` on floats;
`pyStrip` models `str.strip()` on the underlying character list. -/

/-- True when the character list starts with the letters S, B, P. -/
def startsSBP : List Char → Bool
  | 'S' :: 'B' :: 'P' :: _ => true
  | _ => false

/-- True when the letters "SBP" occur contiguously in the list. -/
def listContainsSBP : List Char → Bool
  | [] => false
  | c :: rest => startsSBP (c :: rest) || listContainsSBP rest

/-- Models the Python membership test `"SBP" in s` on a string. -/
def containsSBP (s : String) : Bool := listContainsSBP s.data

/-- Python built-in `min` on two rationals. -/
def pymin (a b : ℚ) : ℚ := if a ≤ b then a else b

/-- Python built-in `max` on two rationals. -/
def pymax (a b : ℚ) : ℚ := if a ≤ b then b else a

/-- Characters removed by Python `str.strip()`: leading and trailing
whitespace. -/
def stripChars (l : List Char) : List Char :=
  ((l.dropWhile Char.isWhitespace).reverse.dropWhile Char.isWhitespace).reverse

/-- Models Python `s.strip()` on a string. -/
def pyStrip (s : String) : String := ⟨stripChars s.data⟩

/-- Models the Python test `not s or not s.strip()` (blank string). -/
def isBlank (s : String) : Bool := (stripChars s.data).isEmpty

/-! ## RAGEngine.calculate_confidence  (engine.py lines 222-252) -/

/-- One retrieved context entry, as produced by `search_similar`; only the
fields read by `calculate_confidence` and by the ranking are modelled. -/
structure Ctx where
  similarity_score : ℚ
  document_type : String
deriving DecidableEq, Repr

/-- Shallow embedding of `RAGEngine.calculate_confidence` (engine.py 222-252).
`top_k` stands for `settings.TOP_K_RESULTS`.  The empty retrieval set returns
0 before the formula is evaluated. -/
def calculate_confidence (top_k : ℕ) (context_list : List Ctx) : ℚ :=
  if context_list.isEmpty then 0
  else
    let avg_similarity : ℚ :=
      (context_list.map (fun c => c.similarity_score)).sum / context_list.length
    let result_factor : ℚ := pymin ((context_list.length : ℚ) / top_k) 1
    let sbp_count : ℕ :=
      (context_list.filter (fun c => containsSBP c.document_type)).length
    let authority_factor : ℚ := (1/10) * ((sbp_count : ℚ) / context_list.length)
    let confidence : ℚ :=
      (6/10) * avg_similarity + (3/10) * result_factor + (1/10 + authority_factor)
    pymin (pymax confidence 0) 1

/-- The confidence formula exactly as the specification words it (section 4.5):
0.6 * avg_similarity + 0.3 * min(count/top_k, 1.0) + 0.1 + 0.1 * (authority_count/count),
clamped to [0,1].  Written from the words of the spec, to be compared with
`calculate_confidence` above. -/
def confidence_spec_formula (top_k : ℕ) (context_list : List Ctx) : ℚ :=
  let count : ℚ := context_list.length
  let avg_similarity : ℚ := (context_list.map (fun c => c.similarity_score)).sum / count
  let authority_count : ℚ :=
    ((context_list.filter (fun c => containsSBP c.document_type)).length : ℚ)
  pymin (pymax ((6/10) * avg_similarity + (3/10) * pymin (count / top_k) 1
      + 1/10 + (1/10) * (authority_count / count)) 0) 1

/-- The concrete retrieval set of the specification example: 4 results with
similarities 0.9, 0.8, 0.7, 0.6, two of them from an SBP (authoritative)
document type. -/
def exampleCtxs : List Ctx :=
  [⟨9/10, "SBP_CIRCULAR"⟩, ⟨8/10, "SBP_POLICY"⟩,
   ⟨7/10, "INTERNAL_POLICY"⟩, ⟨6/10, "USER_UPLOAD"⟩]

/-! ## MilvusVectorStore.search_similar  (vector_store.py lines 238-362)

Only the post-Milvus part is modelled: the raw nearest-neighbour hits
(with their cosine distances) are the input, and the embedding covers the
similarity conversion, the `min_similarity` filter, the two-key sort and the
`top_k` truncation. -/

/-- A raw Milvus hit: its cosine distance and the stored fields the ranking
reads. -/
structure Hit where
  distance : ℚ
  document_type : String
  content : String
deriving DecidableEq, Repr

/-- A formatted retrieval result (the dictionary built in `search_similar`);
`similarity_score` is 1 - distance. -/
structure RankedResult where
  similarity_score : ℚ
  document_type : String
  content : String
deriving DecidableEq, Repr

/-- The dictionary built for one hit in `search_similar`. -/
def formatHit (h : Hit) : RankedResult :=
  ⟨1 - h.distance, h.document_type, h.content⟩

/-- The first component of `sort_key` in `search_similar`: 0 for SBP
(authoritative) document types, 1 otherwise. -/
def type_priority (r : RankedResult) : ℕ :=
  if containsSBP r.document_type then 0 else 1

/-- The order realised by Python `list.sort(key=sort_key)` with
`sort_key = (type_priority, -similarity_score)`: ascending priority, and
descending similarity within a priority class. -/
def searchOrder (a b : RankedResult) : Prop :=
  type_priority a < type_priority b ∨
    (type_priority a = type_priority b ∧ b.similarity_score ≤ a.similarity_score)

instance : DecidableRel searchOrder := fun a b => by
  unfold searchOrder; infer_instance

instance : IsTotal RankedResult searchOrder where
  total a b := by
    unfold searchOrder
    rcases Nat.lt_trichotomy (type_priority a) (type_priority b) with h | h | h
    · exact Or.inl (Or.inl h)
    · rcases le_total b.similarity_score a.similarity_score with hs | hs
      · exact Or.inl (Or.inr ⟨h, hs⟩)
      · exact Or.inr (Or.inr ⟨h.symm, hs⟩)
    · exact Or.inr (Or.inl h)

instance : IsTrans RankedResult searchOrder where
  trans a b c hab hbc := by
    unfold searchOrder at *
    rcases hab with h1 | ⟨h1, s1⟩
    · rcases hbc with h2 | ⟨h2, _⟩
      · exact Or.inl (h1.trans h2)
      · exact Or.inl (h2 ▸ h1)
    · rcases hbc with h2 | ⟨h2, s2⟩
      · exact Or.inl (h1 ▸ h2)
      · exact Or.inr ⟨h1.trans h2, s2.trans s1⟩

/-- Shallow embedding of the retrieval ranking of
`MilvusVectorStore.search_similar` (vector_store.py 321-362): convert each hit
to a result with `similarity_score = 1 - distance`, drop results below
`min_similarity`, sort stably by `(type_priority, -similarity_score)`, and
truncate to `top_k`. -/
def search_similar (min_similarity : ℚ) (top_k : ℕ) (hits : List Hit) :
    List RankedResult :=
  let formatted_results :=
    (hits.map formatHit).filter (fun r => decide (min_similarity ≤ r.similarity_score))
  (List.insertionSort searchOrder formatted_results).take top_k

/-! ## TextChunker  (chunker.py)

A sentence is identified with its token count, and a section with its list of
sentences; `count_tokens` of a joined text is then the sum of the sentence
counts, which matches the additive accumulator `current_tokens` used by the
source for every chunk it emits. -/

/-- A produced chunk: the sentences it contains and the `token_count` recorded
for it (the value of `current_tokens` at emission). -/
structure MChunk where
  sentences : List ℕ
  token_count : ℕ
deriving DecidableEq, Repr

/-- The chunker configuration: `chunk_size`, `chunk_overlap`,
`min_chunk_size`. -/
structure ChunkerCfg where
  chunk_size : ℕ
  chunk_overlap : ℕ
  min_chunk_size : ℕ
deriving DecidableEq, Repr

/-- The accumulation loop of `TextChunker._get_overlap_text`
(chunker.py 278-297): walk the sentences from the end, prepending, while the
token total stays within `chunk_overlap`. -/
def overlapGo (overlap : ℕ) : List ℕ → List ℕ → ℕ → List ℕ
  | [], acc, _ => acc
  | s :: rest, acc, tok =>
    if overlap < tok + s then acc else overlapGo overlap rest (s :: acc) (tok + s)

/-- Shallow embedding of `TextChunker._get_overlap_text` (chunker.py 278-297):
the longest sentence suffix whose token total is within `chunk_overlap`. -/
def get_overlap_text (overlap : ℕ) (sentences : List ℕ) : List ℕ :=
  overlapGo overlap sentences.reverse [] 0

/-- The close step of the accumulation loop: a non-empty accumulator is
appended to the emitted chunks with its recorded `current_tokens`
(chunker.py 176-184 and 228-234). -/
def closeChunk (chunks : List MChunk) (cur : List ℕ) (curTok : ℕ) :
    List MChunk :=
  if cur.isEmpty then chunks else chunks ++ [⟨cur, curTok⟩]

/-- The greedy sentence-accumulation loop shared by
`TextChunker._chunk_section` (chunker.py 172-198) and
`TextChunker._simple_chunk` (chunker.py 224-248).  State: emitted chunks,
current sentence accumulator, `current_tokens`.  When adding the next
sentence would exceed `chunk_size` the accumulator is closed; with a positive
`chunk_overlap` and at least one closed chunk, the next accumulator is seeded
with the overlap tail (its token count re-counted), otherwise it restarts
with the sentence alone. -/
def chunkLoop (cfg : ChunkerCfg) :
    List ℕ → List MChunk → List ℕ → ℕ → List MChunk × List ℕ × ℕ
  | [], chunks, cur, curTok => (chunks, cur, curTok)
  | s :: rest, chunks, cur, curTok =>
    if cfg.chunk_size < curTok + s then
      if 0 < cfg.chunk_overlap ∧ ¬ (closeChunk chunks cur curTok).isEmpty then
        chunkLoop cfg rest (closeChunk chunks cur curTok)
          (get_overlap_text cfg.chunk_overlap cur ++ [s])
          (get_overlap_text cfg.chunk_overlap cur ++ [s]).sum
      else
        chunkLoop cfg rest (closeChunk chunks cur curTok) [s] s
    else
      chunkLoop cfg rest chunks (cur ++ [s]) (curTok + s)

/-- The final-chunk handling shared by `_chunk_section` (chunker.py 200-209)
and `_simple_chunk` (chunker.py 250-257): the pending accumulator is emitted
only when non-empty and at least `min_chunk_size` tokens. -/
def finalizeChunks (cfg : ChunkerCfg) (st : List MChunk × List ℕ × ℕ) :
    List MChunk :=
  if ¬ st.2.1.isEmpty ∧ cfg.min_chunk_size ≤ st.2.2
  then st.1 ++ [⟨st.2.1, st.2.2⟩] else st.1

/-- Shallow embedding of `TextChunker._chunk_section` (chunker.py 146-211):
a section whose token total fits `chunk_size` becomes a single chunk
(with no minimum-size check); otherwise the sentence loop runs and the final
partial chunk is kept only when it reaches `min_chunk_size`. -/
def chunk_section (cfg : ChunkerCfg) (sentences : List ℕ) : List MChunk :=
  if sentences.sum ≤ cfg.chunk_size then [⟨sentences, sentences.sum⟩]
  else finalizeChunks cfg (chunkLoop cfg sentences [] [] 0)

/-- Shallow embedding of `TextChunker._simple_chunk` (chunker.py 213-265):
the sentence loop over the whole text, final partial chunk kept only when it
reaches `min_chunk_size` — with no sole-chunk exception. -/
def simple_chunk (cfg : ChunkerCfg) (sentences : List ℕ) : List MChunk :=
  finalizeChunks cfg (chunkLoop cfg sentences [] [] 0)

/-- Shallow embedding of `TextChunker.chunk_text` (chunker.py 57-88): a
document is given as its detected sections (each a sentence list).  With at
least two detected sections each section is chunked separately; otherwise
`_split_by_sections` returns nothing and the whole text goes through
`_simple_chunk`.  (The final re-indexing only renumbers chunks and is not
modelled.) -/
def chunk_text (cfg : ChunkerCfg) (sections : List (List ℕ)) : List MChunk :=
  if 1 < sections.length then (sections.map (chunk_section cfg)).flatten
  else simple_chunk cfg sections.flatten

/-- The configuration of the repository defaults: chunk_size 400,
chunk_overlap 50, min_chunk_size 100 (config.py 47-48, chunker.py 40). -/
def defaultCfg : ChunkerCfg := ⟨400, 50, 100⟩

/-! ## ComplianceAnalyzer._parse_response  (analyzer.py 315-371) -/

/-- One analysis point of the model payload. -/
structure AnalysisPoint where
  point : String
  clause_reference : Option String
deriving DecidableEq, Repr

/-- One recommendation of the model payload. -/
structure Recommendation where
  recommendation : String
  priority : String
deriving DecidableEq, Repr

/-- One violation entry of the model payload. -/
structure Violation where
  what : String
  why : String
  clause : String
deriving DecidableEq, Repr

/-- The JSON object decoded from the model response; every key may be
absent. -/
structure ParsedJson where
  status : Option String
  confidence_score : Option ℚ
  summary : Option String
  analysis : Option (List AnalysisPoint)
  violations : Option (List Violation)
  recommendations : Option (List Recommendation)
deriving DecidableEq, Repr

/-- The dictionary `_parse_response` returns: after the fallback or the
field backfill, `status`, `summary`, `analysis`, `violations` and
`recommendations` are always present; `confidence_score` is present unless
the model omitted it and no override fired. -/
structure AnalysisDict where
  status : String
  confidence_score : Option ℚ
  summary : String
  analysis : List AnalysisPoint
  violations : List Violation
  recommendations : List Recommendation
deriving DecidableEq, Repr

/-- Shallow embedding of `ComplianceAnalyzer._parse_response`
(analyzer.py 315-371).  `decoded` is the result of `json.loads` on the
cleaned response text: `none` when decoding raised, otherwise the decoded
object.  `confidence_threshold` stands for `settings.CONFIDENCE_THRESHOLD`.
On decode failure the deterministic fallback dictionary is returned; on
success the low-retrieval-confidence override fires before missing fields
are backfilled. -/
def parse_response (confidence_threshold : ℚ) (decoded : Option ParsedJson)
    (initial_confidence : ℚ) : AnalysisDict :=
  match decoded with
  | none =>
    { status := "INSUFFICIENT INFORMATION"
      confidence_score := some 0
      summary := "Unable to parse compliance analysis. Please rephrase your query."
      analysis := [⟨"Analysis parsing failed", none⟩]
      violations := []
      recommendations := [⟨"Please retry with a clearer query", "medium"⟩] }
  | some result =>
    let result_confidence := result.confidence_score.getD 0
    let result2 : ParsedJson :=
      if initial_confidence < confidence_threshold then
        { result with
          status := some "INSUFFICIENT INFORMATION"
          confidence_score := some (pymin result_confidence initial_confidence)
          summary := some ("Insufficient regulatory context found. "
            ++ result.summary.getD "") }
      else result
    { status := result2.status.getD "INSUFFICIENT INFORMATION"
      confidence_score := result2.confidence_score
      summary := result2.summary.getD "No summary available"
      analysis :=
        match result2.analysis with
        | none => [⟨"No analysis available", none⟩]
        | some [] => [⟨"No analysis available", none⟩]
        | some l => l
      violations := result2.violations.getD []
      recommendations :=
        match result2.recommendations with
        | none => [⟨"Review with compliance officer", "medium"⟩]
        | some [] => [⟨"Review with compliance officer", "medium"⟩]
        | some l => l }

/-! ## EmbeddingService  (embeddings.py)

The external Gemini call is a parameter `svc`; an embedding is a rational
vector.  The tenacity decorator `retry(stop=stop_after_attempt(3), ...)`
retries the whole function body on ANY exception, so it is modelled by a
driver that re-runs the (deterministic) body until it succeeds or the
attempt bound is reached, counting attempts and service calls. -/

/-- Errors of the embedding layer: the `ValueError` raised on blank input,
or a service failure. -/
inductive EmbedError where
  | valueError (msg : String)
  | serviceError
deriving DecidableEq, Repr

/-- One un-retried execution of the body of `EmbeddingService.embed_text`
(embeddings.py 49-75): blank input raises `ValueError` before the service is
called; otherwise the service is called once.  Returns the outcome and the
number of service calls made. -/
def embed_text_body (svc : String → Except Unit (List ℚ)) (text : String) :
    Except EmbedError (List ℚ) × ℕ :=
  if isBlank text then (.error (.valueError "Text cannot be empty"), 0)
  else
    match svc text with
    | .ok v => (.ok v, 1)
    | .error _ => (.error .serviceError, 1)

/-- One un-retried execution of the body of `EmbeddingService.embed_query`
(embeddings.py 81-107); identical control flow to `embed_text`, with the
query-intent service `svc`. -/
def embed_query_body (svc : String → Except Unit (List ℚ)) (query : String) :
    Except EmbedError (List ℚ) × ℕ :=
  if isBlank query then (.error (.valueError "Query cannot be empty"), 0)
  else
    match svc query with
    | .ok v => (.ok v, 1)
    | .error _ => (.error .serviceError, 1)

/-- The tenacity driver `retry(stop=stop_after_attempt(n))` with its default
retry condition (retry on any exception), run over a deterministic body:
re-attempt until success or until `n` attempts are used.  Returns the final
outcome, the number of attempts made, and the total service calls. -/
def tenacityRetry (body : Except EmbedError (List ℚ) × ℕ) :
    ℕ → Except EmbedError (List ℚ) × ℕ × ℕ
  | 0 => (body.1, 0, 0)
  | 1 => (body.1, 1, body.2)
  | Nat.succ (Nat.succ n) =>
    match body.1 with
    | .ok v => (.ok v, 1, body.2)
    | .error _ =>
      let rest := tenacityRetry body (Nat.succ n)
      (rest.1, rest.2.1 + 1, rest.2.2 + body.2)

/-- `EmbeddingService.embed_text` as decorated: 3 attempts
(embeddings.py 45-48). -/
def embed_text (svc : String → Except Unit (List ℚ)) (text : String) :
    Except EmbedError (List ℚ) × ℕ × ℕ :=
  tenacityRetry (embed_text_body svc text) 3

/-- `EmbeddingService.embed_query` as decorated: 3 attempts
(embeddings.py 77-80). -/
def embed_query (svc : String → Except Unit (List ℚ)) (query : String) :
    Except EmbedError (List ℚ) × ℕ × ℕ :=
  tenacityRetry (embed_query_body svc query) 3

/-- Shallow embedding of `EmbeddingService.embed_texts`
(embeddings.py 109-139): empty input gives an empty batch; blank texts are
filtered out; if nothing is left a `ValueError` is raised; otherwise every
remaining text is embedded in order (the sub-batching by 100 preserves order
and count). -/
def embed_texts (f : String → List ℚ) (texts : List String) :
    Except String (List (List ℚ)) :=
  if texts.isEmpty then .ok []
  else
    let valid_texts := texts.filter (fun t => ¬ isBlank t)
    if valid_texts.isEmpty then .error "All texts are empty"
    else .ok (valid_texts.map f)

/-! ## MilvusVectorStore.store_chunks  (vector_store.py 134-236) and
RAGEngine.ingest_document  (engine.py 43-131) -/

/-- The chunk dictionaries passed to `store_chunks`; only the fields the
claims need are modelled. -/
structure ChunkIn where
  content : String
  chunk_index : ℕ
deriving DecidableEq, Repr

/-- One row inserted into the Milvus collection. -/
structure MilvusRow where
  content : String
  chunk_index : ℕ
  embedding : List ℚ
deriving DecidableEq, Repr

/-- Shallow embedding of `MilvusVectorStore.store_chunks`
(vector_store.py 134-236): embed all chunk contents as a batch, zip the
chunks with the embeddings to build the insert rows, insert them, and return
`len(chunks)`.  `f` is the per-text embedding function.  The returned pair is
(rows actually inserted, reported stored count). -/
def store_chunks (f : String → List ℚ) (chunks : List ChunkIn) :
    Except String (List MilvusRow × ℕ) :=
  match embed_texts f (chunks.map (fun c => c.content)) with
  | .error e => .error e
  | .ok embeddings =>
    let rows := (chunks.zip embeddings).map
      (fun p => MilvusRow.mk p.1.content p.1.chunk_index p.2)
    .ok (rows, chunks.length)

/-- The observable outcome of `RAGEngine.ingest_document`: the returned value
or raised message, the `processing_error` recorded on the document, the
`is_processed` flag, the recorded `chunk_count`, and the rows written to the
vector store. -/
structure IngestOutcome where
  result : Except String ℕ
  processing_error : Option String
  is_processed : Bool
  chunk_count : Option ℕ
  stored_rows : List MilvusRow
deriving Repr

/-- The exception path of `ingest_document` (engine.py 123-131): the handler
records the message in `processing_error`, flushes, and re-raises; nothing is
stored and the document stays unprocessed. -/
def ingestFailure (msg : String) : IngestOutcome :=
  ⟨.error msg, some msg, false, none, []⟩

/-- Shallow embedding of `RAGEngine.ingest_document` (engine.py 43-131).
`textOpt` is the text returned by the extractor (`none` when absent),
`chunker` models `TextChunker.chunk_text` on the raw text, `f` the embedding
service.  Extracted text that is absent or, stripped, shorter than 50
characters raises `ValueError("Document contains insufficient text content")`;
the handler records the message in `processing_error` and re-raises, storing
nothing. -/
def ingest_document (chunker : String → List ChunkIn) (f : String → List ℚ)
    (textOpt : Option String) : IngestOutcome :=
  match textOpt with
  | none => ingestFailure "Document contains insufficient text content"
  | some text =>
    if (pyStrip text).length < 50 then
      ingestFailure "Document contains insufficient text content"
    else if (chunker text).isEmpty then
      ingestFailure "Failed to create chunks from document"
    else
      match store_chunks f (chunker text) with
      | .error e => ingestFailure e
      | .ok (rows, stored_count) =>
        ⟨.ok stored_count, none, true, some stored_count, rows⟩

/-- A concrete decoded model payload used to instantiate the override rule:
the model asserts COMPLIANT with confidence 0.8. -/
def exampleParsedJson : ParsedJson :=
  ⟨some "COMPLIANT", some (8/10), some "All requirements are met",
   some [⟨"Requirement satisfied", some "Clause 1.1"⟩], some [],
   some [⟨"Maintain current controls", "low"⟩]⟩

/-- A concrete embedding function for evaluation: a text maps to the
one-element vector of its character count. -/
def embedLen (s : String) : List ℚ := [(s.data.length : ℚ)]

/-- The failing input of the stored-count claim: a chunk list in which the
first chunk has empty content. -/
def badChunks : List ChunkIn := [⟨"", 0⟩, ⟨"hello", 1⟩]

end ComplianceRAG

namespace ComplianceRAG

/-! ## Theorems -/

theorem pymin_eq_min (a b : ℚ) : pymin a b = min a b := by
  simp [pymin, min_def]

theorem pymax_eq_max (a b : ℚ) : pymax a b = max a b := by
  rcases le_total a b with h | h
  · simp [pymax, max_eq_right h, h]
  · rcases lt_or_eq_of_le h with h2 | h2
    · simp [pymax, max_eq_left h, not_le.mpr h2]
    · simp [pymax, h2]

theorem calculate_confidence_eq_spec (top_k : ℕ) (l : List Ctx) (h : l ≠ []) :
    calculate_confidence top_k l = confidence_spec_formula top_k l := by
  unfold calculate_confidence confidence_spec_formula
  rw [if_neg (by simpa using h)]
  ring_nf

theorem calculate_confidence_example :
    calculate_confidence 5 exampleCtxs = 84/100 := by
  norm_num [calculate_confidence, exampleCtxs, pymin, pymax, List.filter,
    (by decide : containsSBP "SBP_CIRCULAR" = true),
    (by decide : containsSBP "SBP_POLICY" = true),
    (by decide : containsSBP "INTERNAL_POLICY" = false),
    (by decide : containsSBP "USER_UPLOAD" = false)]

/-- C2: for every non-empty retrieval set the confidence score equals exactly
0.6 * avg_similarity + 0.3 * min(count/top_k, 1.0) + 0.1 + 0.1 * (authority_count/count)
clamped to [0,1]; in particular, on the example of 4 results with similarities
0.9, 0.8, 0.7, 0.6, two of them authoritative, and top_k = 5, it is exactly
0.84. -/
theorem claim_C2_confidence_formula :
    (∀ (top_k : ℕ) (l : List Ctx), l ≠ [] →
      calculate_confidence top_k l = confidence_spec_formula top_k l) ∧
    calculate_confidence 5 exampleCtxs = 84/100 :=
  ⟨calculate_confidence_eq_spec, calculate_confidence_example⟩

/-- Witness for C2: the formula equality instantiated at a concrete
one-element retrieval set. -/
theorem claim_C2_confidence_formula_witness :
    calculate_confidence 3 [⟨1/2, "GUIDELINE"⟩] =
      confidence_spec_formula 3 [⟨1/2, "GUIDELINE"⟩] :=
  claim_C2_confidence_formula.1 3 [⟨1/2, "GUIDELINE"⟩] (by decide)

/-- C3: the confidence score always lies in [0,1], and the empty retrieval
set yields exactly 0 (the empty case returns before the formula is
evaluated). -/
theorem claim_C3_confidence_bounds :
    (∀ (top_k : ℕ) (l : List Ctx),
      0 ≤ calculate_confidence top_k l ∧ calculate_confidence top_k l ≤ 1) ∧
    (∀ top_k : ℕ, calculate_confidence top_k [] = 0) := by
  refine ⟨fun top_k l => ?_, fun top_k => rfl⟩
  unfold calculate_confidence
  split
  · norm_num
  · rw [pymin_eq_min, pymax_eq_max]
    exact ⟨le_min (le_max_right _ _) (by norm_num), min_le_right _ _⟩

/-- C4: the retrieval ranking discards results below `min_similarity`,
orders the remainder by ascending `type_priority` and, within a priority
class, descending similarity, and truncates to `top_k`; consequently, in the
output a lower-authority result never precedes a higher-authority result
whose similarity is equal or higher. -/
theorem claim_C4_retrieval_ranking (hits : List Hit) (min_similarity : ℚ)
    (top_k : ℕ) :
    (∀ r ∈ search_similar min_similarity top_k hits,
        min_similarity ≤ r.similarity_score) ∧
    (search_similar min_similarity top_k hits).length ≤ top_k ∧
    List.Sorted searchOrder (search_similar min_similarity top_k hits) ∧
    (search_similar min_similarity top_k hits).Pairwise
      (fun a b => ¬ (type_priority a = 1 ∧ type_priority b = 0 ∧
        a.similarity_score ≤ b.similarity_score)) := by
  have hsorted :
      List.Sorted searchOrder (search_similar min_similarity top_k hits) := by
    unfold search_similar
    exact (List.sorted_insertionSort searchOrder _).sublist
      (List.take_sublist _ _)
  refine ⟨?_, ?_, hsorted, ?_⟩
  · intro r hr
    unfold search_similar at hr
    have hr2 := (List.take_sublist _ _).mem hr
    rw [List.mem_insertionSort] at hr2
    have := List.of_mem_filter hr2
    exact of_decide_eq_true this
  · unfold search_similar
    exact List.length_take_le _ _
  · refine hsorted.imp ?_
    intro a b hab
    rcases hab with h | ⟨h, _⟩ <;> rintro ⟨ha, hb, _⟩
    · omega
    · omega

theorem overlapGo_sum_le (ov : ℕ) :
    ∀ (l acc : List ℕ) (tok : ℕ), acc.sum = tok → tok ≤ ov →
      (overlapGo ov l acc tok).sum ≤ ov := by
  intro l
  induction l with
  | nil => intro acc tok hsum htok; simpa [overlapGo, hsum] using htok
  | cons s rest ih =>
    intro acc tok hsum htok
    unfold overlapGo
    split
    · simpa [hsum] using htok
    · exact ih (s :: acc) (tok + s) (by simp [hsum]; omega) (by omega)

theorem get_overlap_text_sum_le (ov : ℕ) (l : List ℕ) :
    (get_overlap_text ov l).sum ≤ ov :=
  overlapGo_sum_le ov l.reverse [] 0 rfl (Nat.zero_le ov)

theorem chunkLoop_bounded (cfg : ChunkerCfg) :
    ∀ (sentences : List ℕ),
      (∀ s ∈ sentences, s + cfg.chunk_overlap ≤ cfg.chunk_size) →
    ∀ (chunks : List MChunk) (cur : List ℕ) (curTok : ℕ),
      (∀ c ∈ chunks, c.token_count ≤ cfg.chunk_size) →
      curTok ≤ cfg.chunk_size →
      (∀ c ∈ (chunkLoop cfg sentences chunks cur curTok).1,
          c.token_count ≤ cfg.chunk_size) ∧
      (chunkLoop cfg sentences chunks cur curTok).2.2 ≤ cfg.chunk_size := by
  intro sentences
  induction sentences with
  | nil => intro _ chunks cur curTok hchunks hcur; exact ⟨hchunks, hcur⟩
  | cons s rest ih =>
    intro hs chunks cur curTok hchunks hcur
    have hss : s + cfg.chunk_overlap ≤ cfg.chunk_size := hs s (by simp)
    have hrest : ∀ x ∈ rest, x + cfg.chunk_overlap ≤ cfg.chunk_size :=
      fun x hx => hs x (by simp [hx])
    have hchunks2 : ∀ c ∈ closeChunk chunks cur curTok,
        c.token_count ≤ cfg.chunk_size := by
      unfold closeChunk
      split
      · exact hchunks
      · intro c hc
        rcases List.mem_append.mp hc with h | h
        · exact hchunks c h
        · simp at h; simp [h, hcur]
    unfold chunkLoop
    split
    · split
      · refine ih hrest _ _ _ hchunks2 ?_
        have h1 := get_overlap_text_sum_le cfg.chunk_overlap cur
        simp only [List.sum_append, List.sum_cons, List.sum_nil]
        omega
      · exact ih hrest _ _ _ hchunks2 (by omega)
    · exact ih hrest chunks (cur ++ [s]) (curTok + s) hchunks (by omega)

theorem finalizeChunks_bounded (cfg : ChunkerCfg)
    (st : List MChunk × List ℕ × ℕ)
    (h1 : ∀ c ∈ st.1, c.token_count ≤ cfg.chunk_size)
    (h2 : st.2.2 ≤ cfg.chunk_size) :
    ∀ c ∈ finalizeChunks cfg st, c.token_count ≤ cfg.chunk_size := by
  unfold finalizeChunks
  split
  · intro c hc
    rcases List.mem_append.mp hc with h | h
    · exact h1 c h
    · simp at h; simp [h, h2]
  · exact h1

theorem chunk_section_bounded (cfg : ChunkerCfg) (sentences : List ℕ)
    (hs : ∀ s ∈ sentences, s + cfg.chunk_overlap ≤ cfg.chunk_size) :
    ∀ c ∈ chunk_section cfg sentences, c.token_count ≤ cfg.chunk_size := by
  unfold chunk_section
  split
  · intro c hc
    simp at hc
    simp [hc]
    omega
  · have h := chunkLoop_bounded cfg sentences hs [] [] 0 (by simp) (Nat.zero_le _)
    exact finalizeChunks_bounded cfg _ h.1 h.2

theorem simple_chunk_bounded (cfg : ChunkerCfg) (sentences : List ℕ)
    (hs : ∀ s ∈ sentences, s + cfg.chunk_overlap ≤ cfg.chunk_size) :
    ∀ c ∈ simple_chunk cfg sentences, c.token_count ≤ cfg.chunk_size := by
  unfold simple_chunk
  have h := chunkLoop_bounded cfg sentences hs [] [] 0 (by simp) (Nat.zero_le _)
  exact finalizeChunks_bounded cfg _ h.1 h.2

/-- C5 counterexample: with the default configuration (chunk_size 400,
chunk_overlap 50, min_chunk_size 100), the document whose sections split into
sentences of 600 and 150 tokens and a second 10-token section yields three
chunks; the first has token_count 600 > chunk_size although it is not the
last chunk of its section (that section yields two chunks), and the
last-of-section chunk of 10 tokens is below min_chunk_size although it is not
the sole chunk of the document.  This falsifies the claim as stated. -/
theorem claim_C5_counterexample :
    chunk_text defaultCfg [[600, 150], [10]] =
      [⟨[600], 600⟩, ⟨[150], 150⟩, ⟨[10], 10⟩] ∧
    (chunk_section defaultCfg [600, 150]).length = 2 ∧
    defaultCfg.chunk_size < 600 ∧
    10 < defaultCfg.min_chunk_size := by decide

/-- C5 amended: every chunk has token_count ≤ chunk_size provided every
sentence fits within chunk_size − chunk_overlap (a longer sentence can make
any chunk, not only the last of a section, exceed chunk_size; and a section
that fits within chunk_size is emitted as one chunk with no minimum-size
check at all). -/
theorem claim_C5_chunk_size_bound (cfg : ChunkerCfg)
    (sections : List (List ℕ))
    (h : ∀ sec ∈ sections, ∀ s ∈ sec, s + cfg.chunk_overlap ≤ cfg.chunk_size) :
    ∀ c ∈ chunk_text cfg sections, c.token_count ≤ cfg.chunk_size := by
  unfold chunk_text
  split
  · intro c hc
    rw [List.mem_flatten] at hc
    obtain ⟨l, hl, hcl⟩ := hc
    rw [List.mem_map] at hl
    obtain ⟨sec, hsec, rfl⟩ := hl
    exact chunk_section_bounded cfg sec (h sec hsec) c hcl
  · refine simple_chunk_bounded cfg _ ?_
    intro s hsx
    rw [List.mem_flatten] at hsx
    obtain ⟨sec, hsec, hssec⟩ := hsx
    exact h sec hsec s hssec

/-- Witness for C5 amended: on a concrete document whose sentences all fit
within chunk_size − chunk_overlap, every produced chunk respects
chunk_size. -/
theorem claim_C5_chunk_size_bound_witness :
    (chunk_text defaultCfg [[100, 200, 300], [50]]).all
      (fun c => c.token_count ≤ defaultCfg.chunk_size) = true := by
  have h := claim_C5_chunk_size_bound defaultCfg [[100, 200, 300], [50]]
    (by decide)
  exact List.all_eq_true.mpr fun c hc => decide_eq_true (h c hc)

theorem chunkLoop_no_close (cfg : ChunkerCfg) :
    ∀ (sentences : List ℕ) (chunks : List MChunk) (cur : List ℕ) (curTok : ℕ),
      curTok + sentences.sum ≤ cfg.chunk_size →
      chunkLoop cfg sentences chunks cur curTok =
        (chunks, cur ++ sentences, curTok + sentences.sum) := by
  intro sentences
  induction sentences with
  | nil => intro chunks cur curTok _; simp [chunkLoop]
  | cons s rest ih =>
    intro chunks cur curTok h
    simp only [List.sum_cons] at h
    unfold chunkLoop
    rw [if_neg (by omega)]
    rw [ih chunks (cur ++ [s]) (curTok + s) (by omega)]
    simp [List.append_assoc]
    omega

/-- C6 counterexample: with the default configuration, a non-empty document
with no structural sections whose single sentence has 30 tokens (below
min_chunk_size 100) yields NO chunks — the final partial chunk is dropped
even though it would be the sole chunk of the document, contradicting the
claimed sole-chunk exception. -/
theorem claim_C6_counterexample :
    chunk_text defaultCfg [[30]] = [] ∧ ([[30]] : List (List ℕ)) ≠ [] ∧
    ([30] : List ℕ).sum ≠ 0 := by decide

/-- C6 amended: the chunker drops a final partial chunk below min_chunk_size
unconditionally — there is no sole-chunk exception; an unstructured document
whose total token count is below min_chunk_size (and within chunk_size)
yields no chunks at all. -/
theorem claim_C6_final_chunk_dropped (cfg : ChunkerCfg)
    (sections : List (List ℕ))
    (h1 : sections.length ≤ 1)
    (h2 : sections.flatten.sum ≤ cfg.chunk_size)
    (h3 : sections.flatten.sum < cfg.min_chunk_size) :
    chunk_text cfg sections = [] := by
  unfold chunk_text
  rw [if_neg (by omega)]
  unfold simple_chunk
  rw [chunkLoop_no_close cfg sections.flatten [] [] 0 (by omega)]
  unfold finalizeChunks
  rw [if_neg]
  simp only [not_and, not_le]
  intro _
  simpa using h3

/-- Witness for C6 amended: a concrete two-sentence unstructured document of
30 tokens total yields no chunks. -/
theorem claim_C6_final_chunk_dropped_witness :
    chunk_text defaultCfg [[20, 10]] = [] :=
  claim_C6_final_chunk_dropped defaultCfg [[20, 10]]
    (by decide) (by decide) (by decide)

/-- C1: whenever the model response decodes as JSON and the retrieval
confidence is strictly below the configured threshold, the returned status is
INSUFFICIENT INFORMATION and the returned confidence is the minimum of the
model-reported confidence and the retrieval confidence — whatever status and
confidence the model returned. -/
theorem claim_C1_low_confidence_override
    (confidence_threshold initial_confidence c : ℚ) (result : ParsedJson)
    (hlow : initial_confidence < confidence_threshold)
    (hconf : result.confidence_score = some c) :
    (parse_response confidence_threshold (some result) initial_confidence).status
        = "INSUFFICIENT INFORMATION" ∧
    (parse_response confidence_threshold (some result) initial_confidence).confidence_score
        = some (min c initial_confidence) := by
  simp [parse_response, hlow, hconf, pymin_eq_min]

/-- Witness for C1: the override at threshold 0.9, retrieval confidence 0.5,
and a model payload asserting COMPLIANT with confidence 0.8. -/
theorem claim_C1_low_confidence_override_witness :
    (parse_response (9/10) (some exampleParsedJson) (1/2)).status
        = "INSUFFICIENT INFORMATION" ∧
    (parse_response (9/10) (some exampleParsedJson) (1/2)).confidence_score
        = some (min (8/10) (1/2)) :=
  claim_C1_low_confidence_override (9/10) (1/2) (8/10) exampleParsedJson
    (by norm_num) rfl

/-- C7: when the cleaned model response fails to decode as JSON, the parse
step returns (rather than raises) the fallback dictionary: status
INSUFFICIENT INFORMATION, confidence exactly 0, and a non-empty
recommendation list. -/
theorem claim_C7_parse_failure_fallback
    (confidence_threshold initial_confidence : ℚ) :
    (parse_response confidence_threshold none initial_confidence).status
        = "INSUFFICIENT INFORMATION" ∧
    (parse_response confidence_threshold none initial_confidence).confidence_score
        = some 0 ∧
    (parse_response confidence_threshold none initial_confidence).recommendations
        ≠ [] := by
  refine ⟨rfl, rfl, ?_⟩
  simp [parse_response]

/-- C8 counterexample: on whitespace-only input the decorated `embed_text`
does NOT fail on the first attempt: the tenacity decorator retries the
`ValueError` like any other exception, so the call is attempted the full 3
times (service never invoked) before the error becomes terminal.  The claim
says the call is not retried, i.e. exactly one attempt. -/
theorem claim_C8_counterexample :
    embed_text (fun _ => .ok [1]) " " =
      (.error (.valueError "Text cannot be empty"), 3, 0) ∧
    (3 : ℕ) ≠ 1 := by
  exact ⟨rfl, by decide⟩

/-- C8 amended: blank input to `embed_text` or `embed_query` raises
`ValueError` before any service call, but the retry decorator (whose default
retries on any exception) re-runs the body until the 3-attempt bound is
exhausted; the call therefore fails with the `ValueError` after 3 attempts
and 0 service calls, rather than immediately. -/
theorem claim_C8_blank_input_retried
    (svc svq : String → Except Unit (List ℚ)) (text : String)
    (h : isBlank text = true) :
    embed_text svc text = (.error (.valueError "Text cannot be empty"), 3, 0) ∧
    embed_query svq text = (.error (.valueError "Query cannot be empty"), 3, 0) := by
  have hb : embed_text_body svc text =
      (.error (.valueError "Text cannot be empty"), 0) := by
    unfold embed_text_body
    rw [if_pos h]
  have hq : embed_query_body svq text =
      (.error (.valueError "Query cannot be empty"), 0) := by
    unfold embed_query_body
    rw [if_pos h]
  unfold embed_text embed_query
  rw [hb, hq]
  exact ⟨rfl, rfl⟩

/-- Witness for C8 amended: the behaviour at the concrete whitespace-only
input " ". -/
theorem claim_C8_blank_input_retried_witness :
    embed_text (fun _ => .ok []) " " =
      (.error (.valueError "Text cannot be empty"), 3, 0) ∧
    embed_query (fun _ => .ok []) " " =
      (.error (.valueError "Query cannot be empty"), 3, 0) :=
  claim_C8_blank_input_retried (fun _ => .ok []) (fun _ => .ok []) " "
    (by decide)

/-- C9: evaluation of `store_chunks` at the failing input — a chunk list
whose first chunk has empty content.  Only ONE row is inserted (and it pairs
the empty-content chunk with the embedding of the other chunk's text), yet
the reported stored count is 2 = len(chunks): the code stores fewer entries
than it reports, against its own docstring ("Returns: Number of chunks
stored") and the one-entry-per-chunk invariant. -/
theorem claim_C9_store_count_bug :
    store_chunks embedLen badChunks =
      .ok ([⟨"", 0, embedLen "hello"⟩], 2) ∧
    ([(⟨"", 0, embedLen "hello"⟩ : MilvusRow)]).length ≠ badChunks.length := by
  exact ⟨rfl, by decide⟩

/-- C10: extracted text that is absent or, after stripping, shorter than 50
characters makes `ingest_document` raise
ValueError("Document contains insufficient text content"), record that
message as the processing error, and store no chunks. -/
theorem claim_C10_short_text_rejected
    (chunker : String → List ChunkIn) (f : String → List ℚ)
    (textOpt : Option String)
    (h : ∀ t ∈ textOpt, (pyStrip t).length < 50) :
    ingest_document chunker f textOpt =
      ingestFailure "Document contains insufficient text content" := by
  cases textOpt with
  | none => rfl
  | some t =>
    have ht := h t rfl
    simp [ingest_document, ht]

/-- Witness for C10: ingestion with no extracted text fails with the
insufficient-content error and stores nothing. -/
theorem claim_C10_short_text_rejected_witness :
    ingest_document (fun _ => []) (fun _ => []) none =
      ingestFailure "Document contains insufficient text content" :=
  claim_C10_short_text_rejected (fun _ => []) (fun _ => []) none
    (by simp)

end ComplianceRAG
